import Mathlib

/-!
Verification development for the NeuroComms pilot dashboard (src/index.tsx).

The program is a single-page UI with four "agent" panels.  Each panel keeps
local state (text inputs, a loading flag, a result object, an error string),
builds a prompt string from its inputs, and feeds it to the mock dispatch
function `callGeminiAPI`, which tests four fixed key substrings against the
prompt, in order, and returns one of four fixed literal JSON objects, an
empty object, or a placeholder sentence.

The embedding below translates that code shallowly:
  * JSON values become the inductive `Json`; the dispatch's return type
    (object or plain string) becomes `GeminiResult`.
  * JavaScript's `String.prototype.includes` becomes `strIncludes`,
    substring containment on the character lists.
  * Each panel's state becomes a structure whose fields are the component's
    `useState` hooks; each submit handler becomes a function from the panel
    state to the new panel state paired with the list of prompts it passed
    to the dispatch (the call trace).  A completed handler run is modelled:
    the intermediate `setIsLoading(true)` / `setResult(null)` / `setError(null)`
    writes are overwritten by the `finally` / success writes, so only the
    final values appear; the early-return branch leaves every field but the
    error untouched, exactly as in the source.
-/

set_option maxRecDepth 10000

namespace NeuroComms

/-- JSON-like values, the shape of the literal objects in `callGeminiAPI`. -/
inductive Json where
  | str : String → Json
  | num : Int → Json
  | arr : List Json → Json
  | obj : List (String × Json) → Json

/-- Return type of `callGeminiAPI`: a JSON object or a plain string. -/
inductive GeminiResult where
  | json : Json → GeminiResult
  | text : String → GeminiResult

/-- Character-list prefix test, the auxiliary for substring containment. -/
def charsPrefix : List Char → List Char → Bool
  | [], _ => true
  | _ :: _, [] => false
  | a :: as, b :: bs => a == b && charsPrefix as bs

/-- Character-list substring containment: does `pat` occur inside the list? -/
def charsIncludes (pat : List Char) : List Char → Bool
  | [] => charsPrefix pat []
  | b :: bs => charsPrefix pat (b :: bs) || charsIncludes pat bs

/-- JavaScript's `s.includes(pat)`: substring containment on strings. -/
def strIncludes (s pat : String) : Bool :=
  charsIncludes pat.data s.data

/-- Key substring tested first by `callGeminiAPI` (with its double quotes). -/
def keyNewsworthiness : String := "\"newsworthiness_score\""

/-- Key substring tested second by `callGeminiAPI`. -/
def keyCompliance : String := "\"compliance_risks\""

/-- Key substring tested third by `callGeminiAPI`. -/
def keyStakeholder : String := "\"stakeholder_segments\""

/-- Key substring tested fourth by `callGeminiAPI`. -/
def keyAnalysis : String := "\"analysis\""

/-- The fixed Narrative Architect response object (src/index.tsx lines 33-47). -/
def narrativeResponse : Json :=
  .obj [
    ("newsworthiness_score", .num 87),
    ("hook", .str "Robotic knee surgery delivers faster recovery and unprecedented precision"),
    ("headlines", .arr [
      .str "New Study: Robotic Knee Replacement Cuts Recovery Time in Half",
      .str "Robotic Precision Leads to Better Outcomes for Knee Patients",
      .str "Groundbreaking Trial Shows Robotics Transform Joint Surgery"]),
    ("story_outline", .obj [
      ("problem", .str "Conventional knee replacements often result in long recovery times and variable outcomes."),
      ("promise", .str "A multi‑center trial demonstrates that robotic guidance improves surgical accuracy and reduces recovery time."),
      ("people", .str "Patients, surgeons and hospital systems seeking better outcomes with fewer complications."),
      ("action", .str "Adopt robotic systems in orthopedic practices to enhance care and participate in ongoing research.")])]

/-- The fixed Compliance Advisor response object (src/index.tsx lines 51-61). -/
def complianceResponse : Json :=
  .obj [
    ("compliance_risks", .arr [
      .str "The phrase \"breakthrough therapy\" implies superiority without substantiation and could violate FDA promotion rules.",
      .str "Stating the product will \"transform\" outcomes may be considered misleading under SEC disclosure standards if unproven."]),
    ("suggested_corrections", .arr [
      .str "Replace \"breakthrough therapy\" with \"new therapy\" unless you have official breakthrough designation.",
      .str "Use \"may improve patient outcomes\" instead of definitive claims about transformation."]),
    ("plain_language_score", .num 78)]

/-- The fixed Audience Intelligence response object (src/index.tsx lines 65-96). -/
def audienceResponse : Json :=
  .obj [
    ("stakeholder_segments", .arr [
      .obj [("segment_name", .str "Patients"),
            ("insights", .str "Desire clear explanations of benefits, risks and insurance coverage; value empathetic tone.")],
      .obj [("segment_name", .str "Physicians"),
            ("insights", .str "Require clinical evidence, procedural details, and peer endorsements; prefer concise, technical communication.")],
      .obj [("segment_name", .str "Regulators"),
            ("insights", .str "Focus on compliance, safety data, and adherence to reporting standards; expect formal tone.")],
      .obj [("segment_name", .str "Investors"),
            ("insights", .str "Interested in market potential, competitive landscape, and financial impact; appreciate strategic vision.")]]),
    ("channel_recommendations", .arr [
      .str "Patients: support forums, social media groups, email newsletters",
      .str "Physicians: CME webinars, medical journals, professional networks",
      .str "Regulators: official submissions, regulatory briefings, industry conferences",
      .str "Investors: earnings calls, investor presentations, LinkedIn"]),
    ("tone_guidelines", .arr [
      .str "Patients: empathetic and reassuring",
      .str "Physicians: evidence‑driven and respectful of expertise",
      .str "Regulators: precise and compliant",
      .str "Investors: confident and forward‑looking"])]

/-- The fixed Strategic Insight response object (src/index.tsx lines 100-118). -/
def analysisResponse : Json :=
  .obj [
    ("analysis", .arr [
      .obj [("brand", .str "Competitor A"),
            ("narrative", .str "Positions itself as the pioneer in digital therapeutics with a heavy focus on innovation."),
            ("share_of_voice", .num 40),
            ("strengths", .str "Strong R&D pipeline, active thought leadership in journals."),
            ("weaknesses", .str "Limited patient outreach and complex messaging.")],
      .obj [("brand", .str "Competitor B"),
            ("narrative", .str "Emphasizes affordability and accessibility of solutions."),
            ("share_of_voice", .num 30),
            ("strengths", .str "Aggressive marketing, strong social media presence."),
            ("weaknesses", .str "Perceived as less advanced technologically.")]]),
    ("opportunity", .str "Differentiate by combining innovation leadership with clear patient‑centric messaging and demonstrated real‑world outcomes.")]

/-- The fallback sentence `callGeminiAPI` returns when no key matches and
`isJsonOutput` is false (src/index.tsx line 122). -/
def placeholderSentence : String :=
  "This is a placeholder response. Provide a valid prompt to receive a structured output."

/-- The mock dispatch (src/index.tsx lines 29-125): inspect the prompt for the
four key substrings in order and return the matching fixed object; otherwise
fall back to the placeholder sentence (when `isJsonOutput` is false) or the
empty object. -/
def callGeminiAPI (prompt : String) (isJsonOutput : Bool) : GeminiResult :=
  if strIncludes prompt keyNewsworthiness then .json narrativeResponse
  else if strIncludes prompt keyCompliance then .json complianceResponse
  else if strIncludes prompt keyStakeholder then .json audienceResponse
  else if strIncludes prompt keyAnalysis then .json analysisResponse
  else if !isJsonOutput then .text placeholderSentence
  else .json (.obj [])

/-- The one-argument call form `callGeminiAPI(prompt)` used by every panel:
the omitted `isJsonOutput` takes its default value `true`. -/
def callGeminiAPIDefault (prompt : String) : GeminiResult :=
  callGeminiAPI prompt true

/-- Field access `j.key` on a JSON object, as the panels' JSX does on results. -/
def Json.field : Json → String → Option Json
  | .obj kvs, key => List.lookup key kvs
  | _, _ => none

/-- Fixed fragment of the Narrative Architect prompt before `industry`. -/
def narrativePromptA : String :=
  "Act as a senior communications strategist working in a highly regulated industry ("

/-- Fixed fragment of the Narrative Architect prompt between `industry` and `title`. -/
def narrativePromptB : String :=
  ").  You are given an announcement title and details.  Your task is to identify the most newsworthy angle and craft a narrative using the NeuroComms four‑phase framework (Problem, Promise, People, Action).  First, assess the newsworthiness and assign a score from 1‑100.  Then propose a compelling hook, three optimized AP‑style headlines, and a detailed story_outline with keys for \"problem\", \"promise\", \"people\", and \"action\".  Output a JSON object with keys: \"newsworthiness_score\" (number), \"hook\" (string), \"headlines\" (array of strings), and \"story_outline\" (object).  Announcement title: \""

/-- Fixed fragment of the Narrative Architect prompt between `title` and `details`. -/
def narrativePromptC : String :=
  "\".  Details: \""

/-- Fixed fragment of the Narrative Architect prompt after `details`. -/
def narrativePromptD : String :=
  "\"."

/-- The prompt template literal of `handleGenerate` (src/index.tsx line 188). -/
def narrativePrompt (title details industry : String) : String :=
  narrativePromptA ++ industry ++ narrativePromptB ++ title ++ narrativePromptC ++ details ++ narrativePromptD

/-- Fixed fragment of the Compliance Advisor prompt before `industry`. -/
def compliancePromptA : String :=
  "Act as a compliance advisor for the "

/-- Fixed fragment of the Compliance Advisor prompt between `industry` and `text`. -/
def compliancePromptB : String :=
  " industry.  Review the following draft communication for regulatory and ethical risks.  Identify any claims that may violate industry regulations (e.g., FDA rules for pharma/medtech, SEC rules for finance, legal advertising codes), jargon or unclear wording, and suggest clear, plain‑language corrections.  Score the overall plain‑language clarity from 1‑100.  Provide a JSON object with keys: \"compliance_risks\" (array of strings), \"suggested_corrections\" (array of strings), and \"plain_language_score\" (number).  Text: \""

/-- Fixed fragment of the Compliance Advisor prompt after `text`. -/
def compliancePromptC : String :=
  "\""

/-- The prompt template literal of `handleReview` (src/index.tsx line 287). -/
def compliancePrompt (text industry : String) : String :=
  compliancePromptA ++ industry ++ compliancePromptB ++ text ++ compliancePromptC

/-- Fixed fragment of the Audience Intelligence prompt before `topic`. -/
def audiencePromptA : String :=
  "You are an audience strategy analyst for regulated industries.  For the topic \""

/-- Fixed fragment of the Audience Intelligence prompt after `topic`. -/
def audiencePromptB : String :=
  "\", identify the key stakeholder segments (e.g., patients, physicians, payers, regulators, investors, general public) and provide insights about their needs, motivations, and preferred channels.  Suggest effective message tones for each segment.  Provide a JSON object with keys: \"stakeholder_segments\" (array of objects with \"segment_name\" and \"insights\"), \"channel_recommendations\" (array of strings), and \"tone_guidelines\" (array of strings)."

/-- The prompt template literal of `handleAnalyze` (src/index.tsx line 369). -/
def audiencePrompt (topic : String) : String :=
  audiencePromptA ++ topic ++ audiencePromptB

/-- Fixed fragment of the Strategic Insight prompt before `competitors`. -/
def strategicPromptA : String :=
  "You are an AI strategic analyst.  Compare the communications strategies of the following competitors: "

/-- Fixed fragment of the Strategic Insight prompt between `competitors` and `topic`. -/
def strategicPromptB : String :=
  ".  Focus on the topic of \""

/-- Fixed fragment of the Strategic Insight prompt after `topic`. -/
def strategicPromptC : String :=
  "\" within regulated industries.  Summarize their narrative positioning, share of voice, strengths and weaknesses, and recommend a unique strategic opportunity for differentiation.  Provide a JSON object with keys: \"analysis\" (array of objects with \"brand\", \"narrative\", \"share_of_voice\", \"strengths\", \"weaknesses\"), and \"opportunity\" (string)."

/-- The prompt template literal of `handleInsight` (src/index.tsx line 448). -/
def strategicPrompt (competitors topic : String) : String :=
  strategicPromptA ++ competitors ++ strategicPromptB ++ topic ++ strategicPromptC

/-- Static error message set on empty input by `handleGenerate` (line 181). -/
def errNarrativeEmpty : String := "Please provide details for your announcement."

/-- Static error message of the unreachable catch branch of `handleGenerate` (line 192). -/
def errNarrativeFailed : String := "Failed to generate narrative. Please try again."

/-- Static error message set on empty input by `handleReview` (line 280). -/
def errComplianceEmpty : String := "Please enter text for compliance review."

/-- Static error message of the unreachable catch branch of `handleReview` (line 291). -/
def errComplianceFailed : String := "Failed to perform compliance review."

/-- Static error message set on empty input by `handleAnalyze` (line 362). -/
def errAudienceEmpty : String := "Please provide a campaign or product topic."

/-- Static error message of the unreachable catch branch of `handleAnalyze` (line 373). -/
def errAudienceFailed : String := "Failed to analyze audience."

/-- Static error message set on empty input by `handleInsight` (line 441). -/
def errStrategicEmpty : String := "Please provide competitors and a topic."

/-- Static error message of the unreachable catch branch of `handleInsight` (line 452). -/
def errStrategicFailed : String := "Failed to generate strategic insight."

/-- State of the Narrative Architect panel: its six `useState` hooks. -/
structure NarrativeState where
  title : String
  details : String
  industry : String
  isLoading : Bool
  result : Option GeminiResult
  error : Option String

/-- State of the Compliance Advisor panel: its five `useState` hooks. -/
structure ComplianceState where
  text : String
  industry : String
  isLoading : Bool
  result : Option GeminiResult
  error : Option String

/-- State of the Audience Intelligence panel: its four `useState` hooks. -/
structure AudienceState where
  topic : String
  isLoading : Bool
  result : Option GeminiResult
  error : Option String

/-- State of the Strategic Insight panel: its five `useState` hooks. -/
structure StrategicState where
  competitors : String
  topic : String
  isLoading : Bool
  result : Option GeminiResult
  error : Option String

/-- The Narrative Architect submit handler (src/index.tsx lines 179-196), as a
completed run: new state paired with the prompts passed to the dispatch.
JavaScript's `!details` is truth of `details = ""` for a string. -/
def handleGenerate (s : NarrativeState) : NarrativeState × List String :=
  if s.details = "" then
    ({ s with error := some errNarrativeEmpty }, [])
  else
    let prompt := narrativePrompt s.title s.details s.industry
    ({ s with isLoading := false, result := some (callGeminiAPIDefault prompt), error := none },
     [prompt])

/-- The Compliance Advisor submit handler (src/index.tsx lines 278-295). -/
def handleReview (s : ComplianceState) : ComplianceState × List String :=
  if s.text = "" then
    ({ s with error := some errComplianceEmpty }, [])
  else
    let prompt := compliancePrompt s.text s.industry
    ({ s with isLoading := false, result := some (callGeminiAPIDefault prompt), error := none },
     [prompt])

/-- The Audience Intelligence submit handler (src/index.tsx lines 360-377). -/
def handleAnalyze (s : AudienceState) : AudienceState × List String :=
  if s.topic = "" then
    ({ s with error := some errAudienceEmpty }, [])
  else
    let prompt := audiencePrompt s.topic
    ({ s with isLoading := false, result := some (callGeminiAPIDefault prompt), error := none },
     [prompt])

/-- The Strategic Insight submit handler (src/index.tsx lines 439-456); its
guard `!competitors || !topic` fires when either field is empty. -/
def handleInsight (s : StrategicState) : StrategicState × List String :=
  if s.competitors = "" ∨ s.topic = "" then
    ({ s with error := some errStrategicEmpty }, [])
  else
    let prompt := strategicPrompt s.competitors s.topic
    ({ s with isLoading := false, result := some (callGeminiAPIDefault prompt), error := none },
     [prompt])

/-- The `useState` defaults of the Narrative Architect panel (lines 172-177). -/
def initialNarrativeState : NarrativeState :=
  { title := "New robotic knee replacement study"
    details := "We are announcing a multi‑center trial showing improved outcomes with our robotic system."
    industry := "MedTech"
    isLoading := false
    result := none
    error := none }

/-- The `useState` defaults of the Compliance Advisor panel (lines 272-276). -/
def initialComplianceState : ComplianceState :=
  { text := "Our breakthrough therapy will transform patient outcomes and is FDA‑approved."
    industry := "Pharma"
    isLoading := false
    result := none
    error := none }

/-- The `useState` defaults of the Audience Intelligence panel (lines 355-358). -/
def initialAudienceState : AudienceState :=
  { topic := "Wearable glucose monitor for diabetics"
    isLoading := false
    result := none
    error := none }

/-- The `useState` defaults of the Strategic Insight panel (lines 433-437). -/
def initialStrategicState : StrategicState :=
  { competitors := "Competitor A, Competitor B"
    topic := "digital therapeutics"
    isLoading := false
    result := none
    error := none }

/-- The four agent panel components of the dashboard. -/
inductive AgentPanel where
  | narrativeArchitect
  | complianceAdvisor
  | audienceIntelligence
  | strategicInsight
deriving DecidableEq

/-- An `AgentCard` element as `App` renders it: title, description, and the
panel component it wraps. -/
structure AgentCardNode where
  title : String
  description : String
  child : AgentPanel
deriving DecidableEq

/-- The grid of `AgentCard`s rendered by `App` (src/index.tsx lines 517-546),
in source order. -/
def appCards : List AgentCardNode :=
  [{ title := "Narrative Architect"
     description := "Discover the hook and craft a compelling NeuroComms story."
     child := .narrativeArchitect },
   { title := "Compliance Advisor"
     description := "Identify risks and translate copy into plain language."
     child := .complianceAdvisor },
   { title := "Audience Intelligence"
     description := "Segment stakeholders and tailor your message."
     child := .audienceIntelligence },
   { title := "Strategic Insight"
     description := "Benchmark competitors and spot your opportunity."
     child := .strategicInsight }]

/-- Combined state of `App`: one independent state record per panel, as each
panel component owns its own `useState` hooks. -/
structure AppState where
  narrative : NarrativeState
  compliance : ComplianceState
  audience : AudienceState
  strategic : StrategicState

/-- Every user operation the four panels expose: each input's `onChange`
setter and each submit button's handler. -/
inductive Action where
  | narrativeSetTitle (v : String)
  | narrativeSetDetails (v : String)
  | narrativeSetIndustry (v : String)
  | narrativeSubmit
  | complianceSetText (v : String)
  | complianceSetIndustry (v : String)
  | complianceSubmit
  | audienceSetTopic (v : String)
  | audienceSubmit
  | strategicSetCompetitors (v : String)
  | strategicSetTopic (v : String)
  | strategicSubmit

/-- The panel an operation belongs to. -/
def actionPanel : Action → AgentPanel
  | .narrativeSetTitle _ | .narrativeSetDetails _ | .narrativeSetIndustry _
  | .narrativeSubmit => .narrativeArchitect
  | .complianceSetText _ | .complianceSetIndustry _ | .complianceSubmit => .complianceAdvisor
  | .audienceSetTopic _ | .audienceSubmit => .audienceIntelligence
  | .strategicSetCompetitors _ | .strategicSetTopic _ | .strategicSubmit => .strategicInsight

/-- One user operation applied to the combined state: a setter writes its own
panel's hook, a submit runs its own panel's handler. -/
def step (s : AppState) : Action → AppState
  | .narrativeSetTitle v => { s with narrative := { s.narrative with title := v } }
  | .narrativeSetDetails v => { s with narrative := { s.narrative with details := v } }
  | .narrativeSetIndustry v => { s with narrative := { s.narrative with industry := v } }
  | .narrativeSubmit => { s with narrative := (handleGenerate s.narrative).1 }
  | .complianceSetText v => { s with compliance := { s.compliance with text := v } }
  | .complianceSetIndustry v => { s with compliance := { s.compliance with industry := v } }
  | .complianceSubmit => { s with compliance := (handleReview s.compliance).1 }
  | .audienceSetTopic v => { s with audience := { s.audience with topic := v } }
  | .audienceSubmit => { s with audience := (handleAnalyze s.audience).1 }
  | .strategicSetCompetitors v => { s with strategic := { s.strategic with competitors := v } }
  | .strategicSetTopic v => { s with strategic := { s.strategic with topic := v } }
  | .strategicSubmit => { s with strategic := (handleInsight s.strategic).1 }

/-- The score the Narrative panel's JSX displays: the stored result's
`newsworthiness_score` field, read directly (line 245). -/
def narrativeDisplayedScore (s : NarrativeState) : Option Json :=
  match s.result with
  | some (.json r) => r.field "newsworthiness_score"
  | _ => none

/-- The score the Compliance panel's JSX displays: the stored result's
`plain_language_score` field, read directly (line 330). -/
def complianceDisplayedScore (s : ComplianceState) : Option Json :=
  match s.result with
  | some (.json r) => r.field "plain_language_score"
  | _ => none

/-- The list the Audience panel's JSX iterates over: the stored result's
`stakeholder_segments` field, read directly (line 404). -/
def audienceDisplayedSegments (s : AudienceState) : Option Json :=
  match s.result with
  | some (.json r) => r.field "stakeholder_segments"
  | _ => none

/-- The list the Strategic panel's JSX iterates over: the stored result's
`analysis` field, read directly (line 490). -/
def strategicDisplayedAnalysis (s : StrategicState) : Option Json :=
  match s.result with
  | some (.json r) => r.field "analysis"
  | _ => none

/-- The field of the dispatch's return value that a panel's JSX would read. -/
def resultField (r : GeminiResult) (key : String) : Option Json :=
  match r with
  | .json j => j.field key
  | .text _ => none

/-- The combined state at first render: every panel at its `useState` defaults. -/
def initialAppState : AppState :=
  { narrative := initialNarrativeState
    compliance := initialComplianceState
    audience := initialAudienceState
    strategic := initialStrategicState }

/-- App states reachable from the initial render by user operations. -/
inductive Reachable : AppState → Prop where
  | init : Reachable initialAppState
  | next (s : AppState) (a : Action) : Reachable s → Reachable (step s a)

/-- A prefix of a list stays a prefix after appending on the right. -/
theorem charsPrefix_append (pat : List Char) :
    ∀ s t : List Char, charsPrefix pat s = true → charsPrefix pat (s ++ t) = true := by
  induction pat with
  | nil => intro s t _; simp [charsPrefix]
  | cons a as ih =>
    intro s t h
    cases s with
    | nil => simp [charsPrefix] at h
    | cons b bs =>
      simp only [charsPrefix, Bool.and_eq_true] at h
      simp only [List.cons_append, charsPrefix, Bool.and_eq_true]
      exact ⟨h.1, ih bs t h.2⟩

/-- The empty pattern occurs in every list. -/
theorem charsIncludes_nil (s : List Char) : charsIncludes [] s = true := by
  cases s <;> simp [charsIncludes, charsPrefix]

/-- An occurrence of `pat` survives appending on the right. -/
theorem charsIncludes_append_right (pat : List Char) :
    ∀ s t : List Char, charsIncludes pat s = true → charsIncludes pat (s ++ t) = true := by
  intro s
  induction s with
  | nil =>
    intro t h
    cases pat with
    | nil => simpa using charsIncludes_nil t
    | cons a as => simp [charsIncludes, charsPrefix] at h
  | cons b bs ih =>
    intro t h
    simp only [charsIncludes, Bool.or_eq_true] at h
    simp only [List.cons_append, charsIncludes, Bool.or_eq_true]
    cases h with
    | inl hp =>
      exact Or.inl (by simpa using charsPrefix_append pat (b :: bs) t hp)
    | inr hi => exact Or.inr (ih t hi)

/-- An occurrence of `pat` survives appending on the left. -/
theorem charsIncludes_append_left (pat : List Char) :
    ∀ s t : List Char, charsIncludes pat t = true → charsIncludes pat (s ++ t) = true := by
  intro s
  induction s with
  | nil => intro t h; simpa using h
  | cons a as ih =>
    intro t h
    simp only [List.cons_append, charsIncludes, Bool.or_eq_true]
    exact Or.inr (ih t h)

/-- String append concatenates the underlying character lists. -/
theorem strData_append (s t : String) : (s ++ t).data = s.data ++ t.data :=
  rfl

/-- `strIncludes` survives appending on the right. -/
theorem strIncludes_append_right (s t pat : String) (h : strIncludes s pat = true) :
    strIncludes (s ++ t) pat = true := by
  unfold strIncludes at h ⊢
  rw [strData_append]
  exact charsIncludes_append_right pat.data s.data t.data h

/-- `strIncludes` survives appending on the left. -/
theorem strIncludes_append_left (s t pat : String) (h : strIncludes t pat = true) :
    strIncludes (s ++ t) pat = true := by
  unfold strIncludes at h ⊢
  rw [strData_append]
  exact charsIncludes_append_left pat.data s.data t.data h

/-- The Narrative prompt contains the first key for every input: the key sits
in the fixed template fragment `narrativePromptB`. -/
theorem narrativePrompt_includes_key (title details industry : String) :
    strIncludes (narrativePrompt title details industry) keyNewsworthiness = true := by
  unfold narrativePrompt
  apply strIncludes_append_right
  apply strIncludes_append_right
  apply strIncludes_append_right
  apply strIncludes_append_right
  apply strIncludes_append_left
  decide

/-- The Compliance prompt contains the second key for every input: the key
sits in the fixed template fragment `compliancePromptB`. -/
theorem compliancePrompt_includes_key (text industry : String) :
    strIncludes (compliancePrompt text industry) keyCompliance = true := by
  unfold compliancePrompt
  apply strIncludes_append_right
  apply strIncludes_append_right
  apply strIncludes_append_left
  decide

/-- The Audience prompt contains the third key for every input: the key sits
in the fixed template fragment `audiencePromptB`. -/
theorem audiencePrompt_includes_key (topic : String) :
    strIncludes (audiencePrompt topic) keyStakeholder = true := by
  unfold audiencePrompt
  apply strIncludes_append_left
  decide

/-- The Strategic prompt contains the fourth key for every input: the key
sits in the fixed template fragment `strategicPromptC`. -/
theorem strategicPrompt_includes_key (competitors topic : String) :
    strIncludes (strategicPrompt competitors topic) keyAnalysis = true := by
  unfold strategicPrompt
  apply strIncludes_append_left
  decide

/-- C1, counterexample: on the empty prompt (which contains none of the four
keys) `callGeminiAPI` returns the empty object, which is none of the four
fixed literal response objects — so the dispatch does not always return one
of the four. -/
theorem c1_counterexample :
    callGeminiAPI "" true ∉ [GeminiResult.json narrativeResponse,
      GeminiResult.json complianceResponse, GeminiResult.json audienceResponse,
      GeminiResult.json analysisResponse] := by
  intro hmem
  have h : callGeminiAPI "" true = GeminiResult.json (Json.obj []) := rfl
  rw [h] at hmem
  simp [narrativeResponse, complianceResponse, audienceResponse, analysisResponse] at hmem

/-- C1, amended: for every prompt and every `isJsonOutput` flag, the mock
dispatch returns one of the four fixed literal response objects, the empty
object, or the fixed placeholder sentence. -/
theorem c1_range (p : String) (b : Bool) :
    callGeminiAPI p b ∈ [GeminiResult.json narrativeResponse,
      GeminiResult.json complianceResponse, GeminiResult.json audienceResponse,
      GeminiResult.json analysisResponse, GeminiResult.json (Json.obj []),
      GeminiResult.text placeholderSentence] := by
  unfold callGeminiAPI
  repeat' split
  all_goals simp

/-- C3: the dispatch result is a function of the containment of the four key
substrings in the prompt together with the `isJsonOutput` flag; two prompts
agreeing on all four containments give equal results under the same flag. -/
theorem c3_containment_determines_result (p q : String) (b : Bool)
    (h1 : strIncludes p keyNewsworthiness = strIncludes q keyNewsworthiness)
    (h2 : strIncludes p keyCompliance = strIncludes q keyCompliance)
    (h3 : strIncludes p keyStakeholder = strIncludes q keyStakeholder)
    (h4 : strIncludes p keyAnalysis = strIncludes q keyAnalysis) :
    callGeminiAPI p b = callGeminiAPI q b := by
  unfold callGeminiAPI
  rw [h1, h2, h3, h4]

/-- C3, witness: the determinism theorem applied at the concrete prompts
`"a"` and `"b"` (which agree on containment of all four keys). -/
theorem c3_containment_determines_result_witness :
    strIncludes "a" keyNewsworthiness = strIncludes "b" keyNewsworthiness ∧
    strIncludes "a" keyCompliance = strIncludes "b" keyCompliance ∧
    strIncludes "a" keyStakeholder = strIncludes "b" keyStakeholder ∧
    strIncludes "a" keyAnalysis = strIncludes "b" keyAnalysis ∧
    callGeminiAPI "a" true = callGeminiAPI "b" true :=
  ⟨rfl, rfl, rfl, rfl, c3_containment_determines_result "a" "b" true rfl rfl rfl rfl⟩

/-- C9: the dispatch tests the four keys in the fixed order newsworthiness,
compliance, stakeholder, analysis, and returns the object of the first key
the prompt contains; so a prompt containing several keys yields the object
of the earliest one. -/
theorem c9_first_match_wins (p : String) (b : Bool) :
    (strIncludes p keyNewsworthiness = true →
       callGeminiAPI p b = GeminiResult.json narrativeResponse) ∧
    (strIncludes p keyNewsworthiness = false →
       strIncludes p keyCompliance = true →
       callGeminiAPI p b = GeminiResult.json complianceResponse) ∧
    (strIncludes p keyNewsworthiness = false →
       strIncludes p keyCompliance = false →
       strIncludes p keyStakeholder = true →
       callGeminiAPI p b = GeminiResult.json audienceResponse) ∧
    (strIncludes p keyNewsworthiness = false →
       strIncludes p keyCompliance = false →
       strIncludes p keyStakeholder = false →
       strIncludes p keyAnalysis = true →
       callGeminiAPI p b = GeminiResult.json analysisResponse) := by
  refine ⟨fun h1 => ?_, fun h1 h2 => ?_, fun h1 h2 h3 => ?_, fun h1 h2 h3 h4 => ?_⟩ <;>
    simp_all [callGeminiAPI]

/-- C9, witness: a prompt containing both the first and the fourth key yields
the Narrative Architect object, the one for the earlier key. -/
theorem c9_first_match_wins_witness :
    strIncludes "\"newsworthiness_score\" and \"analysis\"" keyNewsworthiness = true ∧
    callGeminiAPI "\"newsworthiness_score\" and \"analysis\"" true
      = GeminiResult.json narrativeResponse :=
  ⟨rfl, (c9_first_match_wins "\"newsworthiness_score\" and \"analysis\"" true).1 rfl⟩

/-- C10: when the prompt contains none of the four keys, the dispatch falls
back to the empty object when `isJsonOutput` is true and to the placeholder
sentence when it is false; the one-argument call form the panels use takes
the default `true` and so gets the empty object.  The embedding is a total
function, matching that the source function cannot throw. -/
theorem c10_fallback (p : String) (b : Bool)
    (h1 : strIncludes p keyNewsworthiness = false)
    (h2 : strIncludes p keyCompliance = false)
    (h3 : strIncludes p keyStakeholder = false)
    (h4 : strIncludes p keyAnalysis = false) :
    (b = true → callGeminiAPI p b = GeminiResult.json (Json.obj [])) ∧
    (b = false → callGeminiAPI p b = GeminiResult.text placeholderSentence) ∧
    callGeminiAPIDefault p = GeminiResult.json (Json.obj []) := by
  refine ⟨fun hb => ?_, fun hb => ?_, ?_⟩ <;>
    simp_all [callGeminiAPIDefault, callGeminiAPI]

/-- C10, witness: the fallback theorem applied at the concrete prompt
`"hello"`, which contains none of the four keys. -/
theorem c10_fallback_witness :
    strIncludes "hello" keyNewsworthiness = false ∧
    strIncludes "hello" keyCompliance = false ∧
    strIncludes "hello" keyStakeholder = false ∧
    strIncludes "hello" keyAnalysis = false ∧
    callGeminiAPI "hello" false = GeminiResult.text placeholderSentence :=
  ⟨rfl, rfl, rfl, rfl, (c10_fallback "hello" false rfl rfl rfl rfl).2.1 rfl⟩

/-- C2, counterexample: in the Compliance Advisor panel, the non-empty user
text `"newsworthiness_score"` (quotes included) is interpolated into the
prompt, the first key then matches, and the panel stores the Narrative
Architect object instead of its own compliance object — so a panel's submit
does not yield that panel's own object for every user text. -/
theorem c2_counterexample :
    (handleReview { text := "\"newsworthiness_score\""
                    industry := "Pharma"
                    isLoading := false
                    result := none
                    error := none }).1.result
      = some (GeminiResult.json narrativeResponse) ∧
    some (GeminiResult.json narrativeResponse)
      ≠ some (GeminiResult.json complianceResponse) := by
  constructor
  · rfl
  · intro h
    simp [narrativeResponse, complianceResponse] at h

/-- C2, amended: the Narrative panel always stores its own newsworthiness
object (its template itself contains the first key); each other panel stores
its own fixed object whenever its built prompt does not contain any
earlier-checked key — in particular for every user text that does not inject
such a key substring into the prompt. -/
theorem c2_panel_results :
    (∀ s : NarrativeState, s.details ≠ "" →
       (handleGenerate s).1.result = some (GeminiResult.json narrativeResponse)) ∧
    (∀ s : ComplianceState, s.text ≠ "" →
       strIncludes (compliancePrompt s.text s.industry) keyNewsworthiness = false →
       (handleReview s).1.result = some (GeminiResult.json complianceResponse)) ∧
    (∀ s : AudienceState, s.topic ≠ "" →
       strIncludes (audiencePrompt s.topic) keyNewsworthiness = false →
       strIncludes (audiencePrompt s.topic) keyCompliance = false →
       (handleAnalyze s).1.result = some (GeminiResult.json audienceResponse)) ∧
    (∀ s : StrategicState, s.competitors ≠ "" → s.topic ≠ "" →
       strIncludes (strategicPrompt s.competitors s.topic) keyNewsworthiness = false →
       strIncludes (strategicPrompt s.competitors s.topic) keyCompliance = false →
       strIncludes (strategicPrompt s.competitors s.topic) keyStakeholder = false →
       (handleInsight s).1.result = some (GeminiResult.json analysisResponse)) := by
  refine ⟨fun s hd => ?_, fun s ht h1 => ?_, fun s ht h1 h2 => ?_,
    fun s hc ht h1 h2 h3 => ?_⟩
  · have hk := narrativePrompt_includes_key s.title s.details s.industry
    simp [handleGenerate, hd, callGeminiAPIDefault, callGeminiAPI, hk]
  · have hk := compliancePrompt_includes_key s.text s.industry
    simp [handleReview, ht, callGeminiAPIDefault, callGeminiAPI, h1, hk]
  · have hk := audiencePrompt_includes_key s.topic
    simp [handleAnalyze, ht, callGeminiAPIDefault, callGeminiAPI, h1, h2, hk]
  · have hk := strategicPrompt_includes_key s.competitors s.topic
    simp [handleInsight, hc, ht, callGeminiAPIDefault, callGeminiAPI, h1, h2, h3, hk]

/-- C2, witness: the amended theorem applied at the four panels' initial
states, whose default inputs are non-empty and inject no key substring. -/
theorem c2_panel_results_witness :
    (handleGenerate initialNarrativeState).1.result
      = some (GeminiResult.json narrativeResponse) ∧
    (handleReview initialComplianceState).1.result
      = some (GeminiResult.json complianceResponse) ∧
    (handleAnalyze initialAudienceState).1.result
      = some (GeminiResult.json audienceResponse) ∧
    (handleInsight initialStrategicState).1.result
      = some (GeminiResult.json analysisResponse) :=
  ⟨c2_panel_results.1 initialNarrativeState (by decide),
   c2_panel_results.2.1 initialComplianceState (by decide) (by decide),
   c2_panel_results.2.2.1 initialAudienceState (by decide) (by decide) (by decide),
   c2_panel_results.2.2.2 initialStrategicState (by decide) (by decide)
     (by decide) (by decide) (by decide)⟩

/-- C8: with the required field empty, each submit handler sets its panel's
error to the static prompt-for-input message and returns early: the call
trace is empty (no dispatch) and every other field — the loading flag, the
stored result, the inputs — is unchanged. -/
theorem c8_empty_input :
    (∀ s : NarrativeState, s.details = "" →
       handleGenerate s = ({ s with error := some errNarrativeEmpty }, [])) ∧
    (∀ s : ComplianceState, s.text = "" →
       handleReview s = ({ s with error := some errComplianceEmpty }, [])) ∧
    (∀ s : AudienceState, s.topic = "" →
       handleAnalyze s = ({ s with error := some errAudienceEmpty }, [])) ∧
    (∀ s : StrategicState, s.competitors = "" ∨ s.topic = "" →
       handleInsight s = ({ s with error := some errStrategicEmpty }, [])) := by
  refine ⟨fun s h => ?_, fun s h => ?_, fun s h => ?_, fun s h => ?_⟩ <;>
    simp [handleGenerate, handleReview, handleAnalyze, handleInsight, h]

/-- C8, witness: the early-return theorem applied to the Narrative panel's
initial state with its details field cleared. -/
theorem c8_empty_input_witness :
    handleGenerate { initialNarrativeState with details := "" }
      = ({ initialNarrativeState with
           details := ""
           error := some errNarrativeEmpty }, []) :=
  c8_empty_input.1 { initialNarrativeState with details := "" } rfl

/-- C7: each submit handler calls the dispatch at most once per invocation;
with non-empty input it makes exactly one call on its built prompt, stores
the returned value as the panel's result unchanged, and the panel's display
reads fields of that stored object directly. -/
theorem c7_single_dispatch :
    (∀ s : NarrativeState,
      (handleGenerate s).2.length ≤ 1 ∧
      (s.details ≠ "" →
        (handleGenerate s).2 = [narrativePrompt s.title s.details s.industry] ∧
        (handleGenerate s).1.result
          = some (callGeminiAPIDefault (narrativePrompt s.title s.details s.industry)) ∧
        narrativeDisplayedScore (handleGenerate s).1
          = resultField (callGeminiAPIDefault (narrativePrompt s.title s.details s.industry))
              "newsworthiness_score")) ∧
    (∀ s : ComplianceState,
      (handleReview s).2.length ≤ 1 ∧
      (s.text ≠ "" →
        (handleReview s).2 = [compliancePrompt s.text s.industry] ∧
        (handleReview s).1.result
          = some (callGeminiAPIDefault (compliancePrompt s.text s.industry)) ∧
        complianceDisplayedScore (handleReview s).1
          = resultField (callGeminiAPIDefault (compliancePrompt s.text s.industry))
              "plain_language_score")) ∧
    (∀ s : AudienceState,
      (handleAnalyze s).2.length ≤ 1 ∧
      (s.topic ≠ "" →
        (handleAnalyze s).2 = [audiencePrompt s.topic] ∧
        (handleAnalyze s).1.result
          = some (callGeminiAPIDefault (audiencePrompt s.topic)) ∧
        audienceDisplayedSegments (handleAnalyze s).1
          = resultField (callGeminiAPIDefault (audiencePrompt s.topic))
              "stakeholder_segments")) ∧
    (∀ s : StrategicState,
      (handleInsight s).2.length ≤ 1 ∧
      (s.competitors ≠ "" → s.topic ≠ "" →
        (handleInsight s).2 = [strategicPrompt s.competitors s.topic] ∧
        (handleInsight s).1.result
          = some (callGeminiAPIDefault (strategicPrompt s.competitors s.topic)) ∧
        strategicDisplayedAnalysis (handleInsight s).1
          = resultField (callGeminiAPIDefault (strategicPrompt s.competitors s.topic))
              "analysis")) := by
  refine ⟨fun s => ?_, fun s => ?_, fun s => ?_, fun s => ?_⟩
  · by_cases hd : s.details = ""
    · simp [handleGenerate, hd]
    · refine ⟨by simp [handleGenerate, hd], fun _ => ⟨by simp [handleGenerate, hd], by
        simp [handleGenerate, hd], ?_⟩⟩
      cases hX : callGeminiAPIDefault (narrativePrompt s.title s.details s.industry) with
      | json j => simp [handleGenerate, hd, narrativeDisplayedScore, resultField, hX]
      | text t => simp [handleGenerate, hd, narrativeDisplayedScore, resultField, hX]
  · by_cases ht : s.text = ""
    · simp [handleReview, ht]
    · refine ⟨by simp [handleReview, ht], fun _ => ⟨by simp [handleReview, ht], by
        simp [handleReview, ht], ?_⟩⟩
      cases hX : callGeminiAPIDefault (compliancePrompt s.text s.industry) with
      | json j => simp [handleReview, ht, complianceDisplayedScore, resultField, hX]
      | text t => simp [handleReview, ht, complianceDisplayedScore, resultField, hX]
  · by_cases ht : s.topic = ""
    · simp [handleAnalyze, ht]
    · refine ⟨by simp [handleAnalyze, ht], fun _ => ⟨by simp [handleAnalyze, ht], by
        simp [handleAnalyze, ht], ?_⟩⟩
      cases hX : callGeminiAPIDefault (audiencePrompt s.topic) with
      | json j => simp [handleAnalyze, ht, audienceDisplayedSegments, resultField, hX]
      | text t => simp [handleAnalyze, ht, audienceDisplayedSegments, resultField, hX]
  · by_cases hc : s.competitors = ""
    · simp [handleInsight, hc]
    · by_cases ht : s.topic = ""
      · simp [handleInsight, hc, ht]
      · refine ⟨by simp [handleInsight, hc, ht], fun _ _ => ⟨by
          simp [handleInsight, hc, ht], by simp [handleInsight, hc, ht], ?_⟩⟩
        cases hX : callGeminiAPIDefault (strategicPrompt s.competitors s.topic) with
        | json j => simp [handleInsight, hc, ht, strategicDisplayedAnalysis, resultField, hX]
        | text t => simp [handleInsight, hc, ht, strategicDisplayedAnalysis, resultField, hX]

/-- C7, witness: the single-dispatch theorem applied at the Audience panel's
initial state, whose topic is non-empty. -/
theorem c7_single_dispatch_witness :
    initialAudienceState.topic ≠ "" ∧
    (handleAnalyze initialAudienceState).2
      = [audiencePrompt initialAudienceState.topic] :=
  ⟨by decide, ((c7_single_dispatch.2.2.1 initialAudienceState).2 (by decide)).1⟩

/-- C4: in every state reachable by user operations, each panel's error is
absent or one of the static string literals hard-coded for that panel in the
source; no error string incorporates any part of the user's input. -/
theorem c4_static_errors (s : AppState) (h : Reachable s) :
    (s.narrative.error = none ∨ s.narrative.error = some errNarrativeEmpty ∨
       s.narrative.error = some errNarrativeFailed) ∧
    (s.compliance.error = none ∨ s.compliance.error = some errComplianceEmpty ∨
       s.compliance.error = some errComplianceFailed) ∧
    (s.audience.error = none ∨ s.audience.error = some errAudienceEmpty ∨
       s.audience.error = some errAudienceFailed) ∧
    (s.strategic.error = none ∨ s.strategic.error = some errStrategicEmpty ∨
       s.strategic.error = some errStrategicFailed) := by
  induction h with
  | init => exact ⟨Or.inl rfl, Or.inl rfl, Or.inl rfl, Or.inl rfl⟩
  | next s a hs ih =>
    obtain ⟨ih1, ih2, ih3, ih4⟩ := ih
    cases a with
    | narrativeSetTitle v => exact ⟨ih1, ih2, ih3, ih4⟩
    | narrativeSetDetails v => exact ⟨ih1, ih2, ih3, ih4⟩
    | narrativeSetIndustry v => exact ⟨ih1, ih2, ih3, ih4⟩
    | narrativeSubmit =>
      refine ⟨?_, ih2, ih3, ih4⟩
      by_cases hd : s.narrative.details = "" <;>
        simp [step, handleGenerate, hd]
    | complianceSetText v => exact ⟨ih1, ih2, ih3, ih4⟩
    | complianceSetIndustry v => exact ⟨ih1, ih2, ih3, ih4⟩
    | complianceSubmit =>
      refine ⟨ih1, ?_, ih3, ih4⟩
      by_cases ht : s.compliance.text = "" <;>
        simp [step, handleReview, ht]
    | audienceSetTopic v => exact ⟨ih1, ih2, ih3, ih4⟩
    | audienceSubmit =>
      refine ⟨ih1, ih2, ?_, ih4⟩
      by_cases ht : s.audience.topic = "" <;>
        simp [step, handleAnalyze, ht]
    | strategicSetCompetitors v => exact ⟨ih1, ih2, ih3, ih4⟩
    | strategicSetTopic v => exact ⟨ih1, ih2, ih3, ih4⟩
    | strategicSubmit =>
      refine ⟨ih1, ih2, ih3, ?_⟩
      by_cases hc : s.strategic.competitors = "" ∨ s.strategic.topic = "" <;>
        simp [step, handleInsight, hc]

/-- C4, witness: the static-error theorem applied at the initial state, which
is reachable by construction. -/
theorem c4_static_errors_witness :
    initialAppState.narrative.error = none ∨
    initialAppState.narrative.error = some errNarrativeEmpty ∨
    initialAppState.narrative.error = some errNarrativeFailed :=
  (c4_static_errors initialAppState Reachable.init).1

/-- C5: every user operation touches only its own panel's state record; the
other three panels' inputs, loading flag, result and error are unchanged. -/
theorem c5_frame (s : AppState) (a : Action) :
    (actionPanel a ≠ AgentPanel.narrativeArchitect →
       (step s a).narrative = s.narrative) ∧
    (actionPanel a ≠ AgentPanel.complianceAdvisor →
       (step s a).compliance = s.compliance) ∧
    (actionPanel a ≠ AgentPanel.audienceIntelligence →
       (step s a).audience = s.audience) ∧
    (actionPanel a ≠ AgentPanel.strategicInsight →
       (step s a).strategic = s.strategic) := by
  cases a <;> simp [step, actionPanel]

/-- C5, witness: the frame theorem applied to a concrete edit of the
Narrative panel's title, which leaves the Compliance panel untouched. -/
theorem c5_frame_witness :
    (step initialAppState (Action.narrativeSetTitle "x")).compliance
      = initialAppState.compliance :=
  (c5_frame initialAppState (Action.narrativeSetTitle "x")).2.1 (by decide)

/-- C6: `App` renders exactly four `AgentCard`-wrapped panels, in the order
Narrative Architect, Compliance Advisor, Audience Intelligence, Strategic
Insight. -/
theorem c6_app_layout :
    appCards.length = 4 ∧
    appCards.map AgentCardNode.child
      = [AgentPanel.narrativeArchitect, AgentPanel.complianceAdvisor,
         AgentPanel.audienceIntelligence, AgentPanel.strategicInsight] ∧
    appCards.map AgentCardNode.title
      = ["Narrative Architect", "Compliance Advisor", "Audience Intelligence",
         "Strategic Insight"] :=
  ⟨rfl, rfl, rfl⟩

end NeuroComms
